import Mathlib

/-!
Verification development for the autonomous-coding hello-world repository.

The Python sources under src/ are shallowly embedded here: Python floats
become exact rationals, Python ints become integers, dictionaries become
association lists, and regular-expression search over the literal-gap
patterns of the source (patterns of the shape "A.*B") becomes an ordered
case-insensitive substring matcher.  Fallible code returns Except values.
-/

/-! ## Embedding of HealthMetrics (src/intelligent_fallback_generator.py, lines 57 to 94) -/

/-- Health and performance metrics for a framework, from the HealthMetrics
dataclass.  Timestamps are modelled as rational seconds. -/
structure HealthMetrics where
  framework : String
  timestamp : ℚ
  response_time : ℚ
  success_rate : ℚ
  error_count : ℤ
  last_error : Option String
  consecutive_failures : ℤ
  api_available : Bool
  tasks_completed : ℤ
  total_tasks : ℤ
  deriving Repr, DecidableEq

/-- The health_score property of HealthMetrics: zero when the API is
unavailable, otherwise the weighted sum of four clamped terms. -/
def HealthMetrics.health_score (m : HealthMetrics) : ℚ :=
  if ¬ m.api_available then 0
  else
    (4/10) * m.success_rate +
    (3/10) * max 0 (1 - m.response_time / 60) +
    (2/10) * max 0 (1 - (m.error_count : ℚ) / 10) +
    (1/10) * max 0 (1 - (m.consecutive_failures : ℚ) / 5)

/-! ## Embedding of FailureDetector.should_trigger_switch (lines 146 to 209) -/

/-- The two numeric thresholds held by FailureDetector; the source defaults
are 3 and 0.3. -/
structure FailureDetector where
  consecutive_failure_threshold : ℤ
  error_rate_threshold : ℚ
  deriving Repr, DecidableEq

/-- Render a rational with two decimal places, as the format specifier
used in the reason strings of the source does for its nonnegative rates
and scores. -/
def format2 (q : ℚ) : String :=
  let n : ℤ := ⌊q * 100 + 1/2⌋
  let frac := (n % 100).natAbs
  toString (n / 100) ++ "." ++ (if frac < 10 then "0" else "") ++ toString frac

/-- FailureDetector.should_trigger_switch: the ordered sequence of early
returns of the source. -/
def should_trigger_switch (d : FailureDetector) (m : HealthMetrics) : Bool × String :=
  if ¬ m.api_available then
    (true, "API unavailable")
  else if m.consecutive_failures ≥ d.consecutive_failure_threshold then
    (true, "Consecutive failures exceeded threshold (" ++
      toString m.consecutive_failures ++ ")")
  else if m.total_tasks > 5 ∧ (m.error_count : ℚ) / (m.total_tasks : ℚ) > d.error_rate_threshold then
    (true, "Error rate too high (" ++
      format2 ((m.error_count : ℚ) / (m.total_tasks : ℚ)) ++ ")")
  else if m.health_score < 3/10 then
    (true, "Health score too low (" ++ format2 m.health_score ++ ")")
  else
    (false, "")

/-- The representative metrics value of test_health_score_calculation in
src/tests/test_switching_logic.py. -/
def representativeMetrics : HealthMetrics :=
  { framework := "claude"
    timestamp := 0
    response_time := 10
    success_rate := 8/10
    error_count := 2
    last_error := none
    consecutive_failures := 0
    api_available := true
    tasks_completed := 8
    total_tasks := 10 }

/-- C1: should_trigger_switch evaluates its conditions in the fixed order
(api_available false; consecutive_failures at or above the threshold;
total_tasks above 5 with error rate above the threshold; health_score
below 0.3) and returns true with the first matching reason, otherwise
(false, ""); and for every metrics value with api_available set to false it
returns (true, "API unavailable") regardless of every other field. -/
theorem should_trigger_switch_ordered_conditions :
    (∀ (d : FailureDetector) (m : HealthMetrics),
      should_trigger_switch d m =
        if m.api_available = false then (true, "API unavailable")
        else if m.consecutive_failures ≥ d.consecutive_failure_threshold then
          (true, "Consecutive failures exceeded threshold (" ++
            toString m.consecutive_failures ++ ")")
        else if m.total_tasks > 5 ∧
            (m.error_count : ℚ) / (m.total_tasks : ℚ) > d.error_rate_threshold then
          (true, "Error rate too high (" ++
            format2 ((m.error_count : ℚ) / (m.total_tasks : ℚ)) ++ ")")
        else if m.health_score < 3/10 then
          (true, "Health score too low (" ++ format2 m.health_score ++ ")")
        else (false, "")) ∧
    (∀ (d : FailureDetector) (m : HealthMetrics),
      should_trigger_switch d { m with api_available := false } =
        (true, "API unavailable")) := by
  constructor
  · intro d m
    by_cases h : m.api_available <;>
      simp [should_trigger_switch, h]
  · intro d m
    simp [should_trigger_switch]

/-- C3: health_score is zero when the API is unavailable and otherwise the
weighted clamped sum; the representative value of the test suite scores
exactly 0.83, strictly greater than 0.5 and at most 1.0. -/
theorem health_score_formula_and_representative :
    (∀ m : HealthMetrics,
      m.health_score =
        if m.api_available = false then 0
        else (4/10) * m.success_rate +
          (3/10) * max 0 (1 - m.response_time / 60) +
          (2/10) * max 0 (1 - (m.error_count : ℚ) / 10) +
          (1/10) * max 0 (1 - (m.consecutive_failures : ℚ) / 5)) ∧
    representativeMetrics.health_score = 83/100 ∧
    representativeMetrics.health_score > 1/2 ∧
    representativeMetrics.health_score ≤ 1 := by
  have hval : representativeMetrics.health_score = 83/100 := by
    simp only [HealthMetrics.health_score, representativeMetrics]
    norm_num [max_def]
  refine ⟨?_, hval, by rw [hval]; norm_num, by rw [hval]; norm_num⟩
  intro m
  by_cases h : m.api_available <;> simp [HealthMetrics.health_score, h]

/-! ## Embedding of SwitchingEngine (src/intelligent_fallback_generator.py, lines 297 to 351) -/

/-- Record of a framework switching event, from the SwitchingEvent
dataclass. -/
structure SwitchingEvent where
  timestamp : ℚ
  from_framework : String
  to_framework : String
  reason : String
  trigger_metrics : HealthMetrics
  success : Bool
  deriving Repr, DecidableEq

/-- The hysteresis window in seconds; the SwitchingEngine constructor
hardcodes 300 (five minutes). -/
def hysteresis_time : ℚ := 300

/-- The mutable state of a SwitchingEngine: its strategy label and its
switching history, most recent event last. -/
structure SwitchingEngine where
  strategy : String
  switching_history : List SwitchingEvent
  deriving Repr, DecidableEq

/-- SwitchingEngine.should_switch_framework.  The current wall-clock time
is passed explicitly as now.  Returns (decision, target framework,
reason) exactly as the three early returns and the final return of the
source do. -/
def should_switch_framework (now : ℚ) (engine : SwitchingEngine)
    (current_framework : String) (current_metrics : HealthMetrics)
    (fallback_metrics : Option HealthMetrics)
    (failure_detector : FailureDetector) : Bool × String × String :=
  let rest : Bool × String × String :=
    let v := should_trigger_switch failure_detector current_metrics
    if v.1 = false then (false, "", v.2)
    else
      let target_framework := if current_framework = "claude" then "opencode" else "claude"
      match fallback_metrics with
      | some fm =>
          if fm.health_score < 5/10 then (false, "", "Target framework unhealthy")
          else (true, target_framework, v.2)
      | none => (true, target_framework, v.2)
  match engine.switching_history.getLast? with
  | some last_switch =>
      if now - last_switch.timestamp < hysteresis_time then
        (false, "", "Recent switch hysteresis")
      else rest
  | none => rest

/-- C2: whenever the switching history is non-empty and fewer than 300
seconds have elapsed since its most recent event, should_switch_framework
returns (false, "", "Recent switch hysteresis") regardless of the current
framework, both metrics arguments, and the failure detector. -/
theorem should_switch_framework_hysteresis
    (now : ℚ) (engine : SwitchingEngine) (current_framework : String)
    (current_metrics : HealthMetrics) (fallback_metrics : Option HealthMetrics)
    (failure_detector : FailureDetector) (last_switch : SwitchingEvent)
    (hlast : engine.switching_history.getLast? = some last_switch)
    (helapsed : now - last_switch.timestamp < 300) :
    should_switch_framework now engine current_framework current_metrics
      fallback_metrics failure_detector = (false, "", "Recent switch hysteresis") := by
  simp [should_switch_framework, hlast, hysteresis_time, helapsed]

/-- A switching event recorded 100 seconds before the probe time, used to
instantiate the hysteresis theorem. -/
def recentSwitchEvent : SwitchingEvent :=
  { timestamp := 0
    from_framework := "claude"
    to_framework := "opencode"
    reason := "API unavailable"
    trigger_metrics := representativeMetrics
    success := false }

/-- Witness for C2: a concrete engine whose single recorded switch is 100
seconds old suppresses a switch even though the metrics passed would
otherwise trigger one. -/
theorem should_switch_framework_hysteresis_witness :
    should_switch_framework 100
      { strategy := "intelligent_primary_secondary",
        switching_history := [recentSwitchEvent] }
      "claude" { representativeMetrics with api_available := false } none
      { consecutive_failure_threshold := 3, error_rate_threshold := 3/10 } =
      (false, "", "Recent switch hysteresis") :=
  should_switch_framework_hysteresis 100
    { strategy := "intelligent_primary_secondary",
      switching_history := [recentSwitchEvent] }
    "claude" { representativeMetrics with api_available := false } none
    { consecutive_failure_threshold := 3, error_rate_threshold := 3/10 }
    recentSwitchEvent rfl (by norm_num [recentSwitchEvent])

/-! ## Embedding of PerformanceMonitor.update_metrics (lines 212 to 272) -/

/-- The rolling-window size of PerformanceMonitor (default 20). -/
def window_size : ℕ := 20

/-- The backward scan of update_metrics that counts how many entries at
the end of the window have a stored success_rate of exactly zero. -/
def count_consecutive_failures (history : List HealthMetrics) : ℤ :=
  go history.reverse
where
  go : List HealthMetrics → ℤ
    | [] => 0
    | m :: rest => if m.success_rate = 0 then 1 + go rest else 0

/-- Replace the last element of a list (the source mutates the appended
entry in place, aliased into the window). -/
def replaceLast (l : List HealthMetrics) (x : HealthMetrics) : List HealthMetrics :=
  l.dropLast ++ [x]

/-- PerformanceMonitor.update_metrics for one framework window: build the
new point from the pre-append window, append it, trim to the window size,
then, when more than one entry is present, overwrite the appended point
with rolling aggregates.  The overwrite happens field by field in source
order, so the tasks_completed recount already sees the overwritten
success_rate of the appended point.  Returns the new window and the point
as finally stored. -/
def update_metrics (history : List HealthMetrics) (framework : String)
    (now : ℚ) (response_time : ℚ) (success : Bool) (error : Option String) :
    List HealthMetrics × HealthMetrics :=
  let recent_tasks := history.length
  let recent_successes := (history.filter (fun m => m.success_rate > 0)).length
  let consecutive_failures :=
    count_consecutive_failures history + (if success then 0 else 1)
  let m : HealthMetrics :=
    { framework := framework
      timestamp := now
      response_time := response_time
      success_rate := if success then 1 else 0
      error_count := if error.isSome then 1 else 0
      last_error := error
      consecutive_failures := consecutive_failures
      api_available := true
      tasks_completed := recent_successes + (if success then 1 else 0)
      total_tasks := recent_tasks + 1 }
  let h := history ++ [m]
  let h := if h.length > window_size then h.drop 1 else h
  if h.length > 1 then
    let sr := ((h.filter (fun x => x.success_rate > 0)).length : ℚ) / (h.length : ℚ)
    let h1 := replaceLast h { m with success_rate := sr }
    let m2 : HealthMetrics :=
      { m with
        success_rate := sr
        error_count := (h1.map (fun x => x.error_count)).sum
        tasks_completed := ((h1.filter (fun x => x.success_rate > 0)).length : ℤ)
        total_tasks := (h1.length : ℤ) }
    (replaceLast h1 m2, m2)
  else (h, m)

/-- The point stored by the first call of the C8 sequence. -/
def metricsPoint1 : HealthMetrics :=
  { framework := "claude", timestamp := 0, response_time := 1, success_rate := 1,
    error_count := 0, last_error := none, consecutive_failures := 0,
    api_available := true, tasks_completed := 1, total_tasks := 1 }

/-- The point stored by the second call of the C8 sequence, after the
rolling-aggregate overwrite: its success_rate is 1/2, not 0. -/
def metricsPoint2 : HealthMetrics :=
  { framework := "claude", timestamp := 1, response_time := 1, success_rate := 1/2,
    error_count := 0, last_error := none, consecutive_failures := 1,
    api_available := true, tasks_completed := 2, total_tasks := 2 }

lemma update_metrics_step1 :
    update_metrics [] "claude" 0 1 true none = ([metricsPoint1], metricsPoint1) := by
  simp [update_metrics, count_consecutive_failures, count_consecutive_failures.go,
    window_size, metricsPoint1]

lemma update_metrics_step2 :
    update_metrics [metricsPoint1] "claude" 1 1 false none =
      ([metricsPoint1, metricsPoint2], metricsPoint2) := by
  simp [update_metrics, count_consecutive_failures, count_consecutive_failures.go,
    window_size, replaceLast, metricsPoint1, metricsPoint2]

lemma update_metrics_step3 :
    (update_metrics [metricsPoint1, metricsPoint2] "claude" 2 1 false none).2.consecutive_failures
      = 1 := by
  simp [update_metrics, count_consecutive_failures, count_consecutive_failures.go,
    window_size, replaceLast, metricsPoint1, metricsPoint2]

/-- C8: starting from an empty window, a success followed by two failures
leaves the second (failed) point stored with success_rate 1/2, so the
backward scan of the third call counts only the immediately preceding failure
and records consecutive_failures = 1, not 2. -/
theorem update_metrics_consecutive_failures_undercount :
    ((update_metrics (update_metrics [] "claude" 0 1 true none).1
        "claude" 1 1 false none).1.getLast?.map (fun m => m.success_rate)
      = some (1/2)) ∧
    (update_metrics (update_metrics (update_metrics [] "claude" 0 1 true none).1
        "claude" 1 1 false none).1 "claude" 2 1 false none).2.consecutive_failures = 1 ∧
    (update_metrics (update_metrics (update_metrics [] "claude" 0 1 true none).1
        "claude" 1 1 false none).1 "claude" 2 1 false none).2.consecutive_failures ≠ 2 := by
  have h1 : (update_metrics [] "claude" 0 1 true none).1 = [metricsPoint1] := by
    rw [update_metrics_step1]
  have h2 : (update_metrics (update_metrics [] "claude" 0 1 true none).1
      "claude" 1 1 false none).1 = [metricsPoint1, metricsPoint2] := by
    rw [h1, update_metrics_step2]
  refine ⟨?_, ?_, ?_⟩
  · rw [h2]
    simp [metricsPoint2]
  · rw [h2]
    exact update_metrics_step3
  · rw [h2, update_metrics_step3]
    decide

/-! ## Embedding of the feature-ledger update of the simulation paths
(src/unified_autonomous_generator.py, lines 694 to 701 and 1192 to 1199) -/

/-- A feature record of the feature ledger. -/
structure FeatureRecord where
  category : String
  description : String
  steps : List String
  passes : Bool
  priority : String
  deriving Repr, DecidableEq

/-- The ledger update loop at the end of both simulation paths: every
record with priority "high" receives the verifier result, every other
record is unconditionally set to passing. -/
def update_features (success : Bool) : List FeatureRecord → List FeatureRecord
  | [] => []
  | f :: rest =>
      { f with passes := if f.priority = "high" then success else true } ::
        update_features success rest

/-- C5: after the single ledger update at the end of a simulation run,
every record with priority "high" carries exactly the verifier result and
every record with any other priority (in particular "medium") is marked
passing unconditionally; nothing but the passes field changes. -/
theorem update_features_high_gets_verdict_medium_passes
    (success : Bool) (ledger : List FeatureRecord) (f : FeatureRecord)
    (hf : f ∈ update_features success ledger) :
    (f.priority = "high" → f.passes = success) ∧
    (f.priority ≠ "high" → f.passes = true) := by
  revert hf
  induction ledger with
  | nil => intro hf; cases hf
  | cons g rest ih =>
      intro hf
      rw [update_features] at hf
      rcases List.mem_cons.mp hf with h | h
      · subst h
        by_cases hp : g.priority = "high" <;> simp [hp]
      · exact ih h

/-- A two-record ledger shaped like the universal "testing" (high) and
"code_quality" (medium) records of the Feature List Builder. -/
def sampleLedger : List FeatureRecord :=
  [ { category := "testing"
      description := "Comprehensive testing and validation"
      steps := ["Test program execution without errors"]
      passes := false
      priority := "high" },
    { category := "code_quality"
      description := "Code follows python best practices"
      steps := ["Add proper documentation and docstrings"]
      passes := false
      priority := "medium" } ]

/-- Witness for C5: with a failing verifier verdict, the high-priority
record of the sample ledger is marked not passing while the medium one is
marked passing. -/
theorem update_features_witness :
    ((update_features false sampleLedger).head?.map (fun f => f.passes) = some false) ∧
    ((update_features false sampleLedger).getLast?.map (fun f => f.passes) = some true) := by
  have h1 := update_features_high_gets_verdict_medium_passes false sampleLedger
    { (sampleLedger.get ⟨0, by decide⟩) with passes := false } (by decide)
  have h2 := update_features_high_gets_verdict_medium_passes false sampleLedger
    { (sampleLedger.get ⟨1, by decide⟩) with passes := true } (by decide)
  refine ⟨?_, ?_⟩
  · have := h1.1 (by decide)
    decide
  · have := h2.2 (by decide)
    decide

/-! ## Embedding of the unified program test
(src/unified_autonomous_generator.py, lines 789 to 815 and 1290 to 1316) -/

/-- Outcome of the single subprocess run of the generated starter
program: it completed with some exit code, it overran the 30-second
timeout, or the invocation raised some other exception (for example a
missing interpreter). -/
inductive RunResult where
  | completed (exit_code : ℤ)
  | timedOut
  | raised
  deriving Repr, DecidableEq

/-- ClaudeAutonomousGenerator._test_program_claude.  The first component
is the returned boolean; the second records whether a subprocess was
actually launched.  A language other than "python" or a missing
src/main.py skips execution and returns true; a completed run returns
true exactly when the exit code is zero; the timeout and every other
exception are caught by the blanket handler, which returns true. -/
def test_program_claude (language : String) (main_py_exists : Bool)
    (run : RunResult) : Bool × Bool :=
  if language = "python" then
    if main_py_exists then
      match run with
      | .completed exit_code => (decide (exit_code = 0), true)
      | .timedOut => (true, true)
      | .raised => (true, true)
    else (true, false)
  else (true, false)

/-- OpenCodeAutonomousGenerator._test_program_opencode, line for line the
same logic as the Claude variant. -/
def test_program_opencode (language : String) (main_py_exists : Bool)
    (run : RunResult) : Bool × Bool :=
  if language = "python" then
    if main_py_exists then
      match run with
      | .completed exit_code => (decide (exit_code = 0), true)
      | .timedOut => (true, true)
      | .raised => (true, true)
    else (true, false)
  else (true, false)

/-- Counterexample to C4: it is not the case that, for Python tasks, the
program test returns true exactly on a zero exit code — a timed-out run is
caught by the blanket exception handler and reports true, not false. -/
theorem test_program_timeout_counterexample :
    ¬ (∀ (main_py_exists : Bool) (run : RunResult),
        (test_program_claude "python" main_py_exists run).1 = true ↔
          run = .completed 0) := by
  intro h
  have := (h true .timedOut).mp (by decide)
  cases this

/-- C4 as amended: for Python tasks whose starter file exists and whose
subprocess run completes, the test returns true exactly when the exit
code is zero (a non-zero exit yields false); a timeout or any other
exception is caught and yields true, in both the Claude and the OpenCode
adapter. -/
theorem test_program_exit_code_amended :
    (∀ exit_code : ℤ,
      (test_program_claude "python" true (.completed exit_code)).1 =
        decide (exit_code = 0)) ∧
    (test_program_claude "python" true .timedOut).1 = true ∧
    (test_program_claude "python" true .raised).1 = true ∧
    (∀ exit_code : ℤ,
      (test_program_opencode "python" true (.completed exit_code)).1 =
        decide (exit_code = 0)) ∧
    (test_program_opencode "python" true .timedOut).1 = true ∧
    (test_program_opencode "python" true .raised).1 = true := by
  refine ⟨fun c => ?_, by decide, by decide, fun c => ?_, by decide, by decide⟩ <;>
    simp [test_program_claude, test_program_opencode]

/-- C10: for every non-Python language, and for Python when src/main.py
is absent, the program test of the unified Claude adapter reports success
(true) and launches no subprocess, so a simulation run can report overall
success without the generated program ever being executed. -/
theorem test_program_claude_skips_execution
    (language : String) (main_py_exists : Bool) (run : RunResult)
    (h : language ≠ "python" ∨ main_py_exists = false) :
    test_program_claude language main_py_exists run = (true, false) := by
  rcases h with h | h
  · simp [test_program_claude, h]
  · subst h
    by_cases hl : language = "python" <;> simp [test_program_claude, hl]

/-- Witness for C10: a JavaScript task, and a Python task with no
src/main.py on disk, both report success with no subprocess launched. -/
theorem test_program_claude_skips_execution_witness :
    test_program_claude "javascript" true (.completed 1) = (true, false) ∧
    test_program_claude "python" false .timedOut = (true, false) :=
  ⟨test_program_claude_skips_execution "javascript" true (.completed 1)
      (Or.inl (by decide)),
    test_program_claude_skips_execution "python" false .timedOut (Or.inr rfl)⟩

/-! ## Embedding of the Task Analyzer
(src/unified_autonomous_generator.py, lines 84 to 128) -/

/-- ASCII lower-casing of a string into its character list, the
embedding of the Python str.lower() call on the ASCII texts at hand. -/
def lowerChars (s : String) : List Char :=
  s.data.map Char.toLower

/-- Whether the first list is a prefix of the second. -/
def charsStart : List Char → List Char → Bool
  | [], _ => true
  | _ :: _, [] => false
  | a :: as, b :: bs => a == b && charsStart as bs

/-- Whether the first list occurs contiguously anywhere inside the
second: the Python substring membership test. -/
def charsContain (needle : List Char) : List Char → Bool
  | [] => charsStart needle []
  | c :: rest => charsStart needle (c :: rest) || charsContain needle rest

/-- Case-insensitive substring test: the Python membership test
word in task.lower(). -/
def containsWord (task_lower : List Char) (word : String) : Bool :=
  charsContain word.data task_lower

/-- The result of BaseAutonomousGenerator.parse_task_description. -/
structure TaskAnalysis where
  language : String
  complexity : String
  features : List String
  description : String
  estimated_files : ℕ
  deriving Repr, DecidableEq

/-- The base file counts per complexity bucket of
BaseAutonomousGenerator._estimate_file_count. -/
def base_count : List (String × ℕ) :=
  [("simple", 1), ("cli", 2), ("library", 3), ("web", 5)]

/-- BaseAutonomousGenerator._estimate_file_count: the base count for the
complexity bucket (default 1 for an unknown bucket) plus the number of
detected features. -/
def estimate_file_count (complexity : String) (features : List String) : ℕ :=
  ((base_count.lookup complexity).getD 1) + features.length

/-- BaseAutonomousGenerator.parse_task_description: ordered keyword
checks on the lower-cased description. -/
def parse_task_description (task : String) : TaskAnalysis :=
  let task_lower := lowerChars task
  let has := fun (w : String) => containsWord task_lower w
  let language :=
    if has "javascript" || has "js" || has "node" then "javascript"
    else if has "java" && ! has "javascript" then "java"
    else "python"
  let complexity :=
    if has "web" || has "app" || has "website" || has "server" || has "api" then "web"
    else if has "cli" || has "command" || has "tool" || has "utility" then "cli"
    else if has "library" || has "package" || has "module" then "library"
    else "simple"
  let features :=
    (if has "gui" || has "interface" || has "window" then ["gui"] else []) ++
    (if has "database" || has "db" || has "sql" then ["database"] else []) ++
    (if has "api" || has "rest" || has "endpoint" then ["api"] else []) ++
    (if has "test" then ["testing"] else [])
  { language := language
    complexity := complexity
    features := features
    description := task
    estimated_files := estimate_file_count complexity features }

/-- A description classified as cli whose sql and rest keywords add the
database and api feature tags without touching the web bucket. -/
def cliTaskExample : String := "command line tool using sql storage and rest calls"

/-- C7: for every description, estimated_files is exactly the base count
of the detected complexity plus the number of detected features; the cli
example with database and api tags yields 4. -/
theorem parse_task_description_estimated_files :
    (∀ task : String,
      (parse_task_description task).estimated_files =
        ((base_count.lookup (parse_task_description task).complexity).getD 1) +
          (parse_task_description task).features.length) ∧
    (parse_task_description cliTaskExample).complexity = "cli" ∧
    (parse_task_description cliTaskExample).features = ["database", "api"] ∧
    (parse_task_description cliTaskExample).estimated_files = 4 := by
  refine ⟨fun task => rfl, by decide, by decide, by decide⟩

/-! ## Embedding of ConfigManager.load_config and the orchestrator
construction reads (src/intelligent_fallback_generator.py, lines 354 to
440) -/

/-- A JSON-like configuration value: the scalar shapes used by the
default configuration plus nested objects as ordered key-value lists. -/
inductive JVal where
  | b (x : Bool)
  | s (x : String)
  | i (x : ℤ)
  | q (x : ℚ)
  | obj (fields : List (String × JVal))
  deriving Repr

/-- The built-in default fallback_system block of
ConfigManager.load_config. -/
def defaultFallbackSystem : List (String × JVal) :=
  [("enabled", .b true),
   ("strategy", .s "intelligent_primary_secondary"),
   ("monitoring_interval", .i 30),
   ("health_check_timeout", .i 10),
   ("consecutive_failure_threshold", .i 3),
   ("error_rate_threshold", .q (3/10)),
   ("response_time_threshold", .q 30),
   ("hysteresis_time", .i 300)]

/-- The built-in default frameworks block. -/
def defaultFrameworks : List (String × JVal) :=
  [("primary", .obj [("name", .s "claude"), ("enabled", .b true),
      ("priority", .i 1), ("health_weight", .q 1)]),
   ("secondary", .obj [("name", .s "opencode"), ("enabled", .b true),
      ("priority", .i 2), ("health_weight", .q (9/10))])]

/-- The built-in default task_routing block. -/
def defaultTaskRouting : List (String × JVal) :=
  [("simple_tasks", .s "opencode"),
   ("complex_tasks", .s "claude"),
   ("web_development", .s "opencode"),
   ("algorithm_implementation", .s "claude")]

/-- The complete built-in default configuration. -/
def default_config : List (String × JVal) :=
  [("fallback_system", .obj defaultFallbackSystem),
   ("frameworks", .obj defaultFrameworks),
   ("task_routing", .obj defaultTaskRouting)]

/-- Python dict.update at one level: every key of the update replaces the
corresponding entry of the base wholesale, and keys new to the base are
appended in order. -/
def dictUpdate (base upd : List (String × JVal)) : List (String × JVal) :=
  (base.map (fun kv =>
    match upd.lookup kv.1 with
    | some v => (kv.1, v)
    | none => kv)) ++
  upd.filter (fun kv => (base.lookup kv.1).isNone)

/-- ConfigManager.load_config: when a configuration file was supplied,
exists, and parsed to a JSON object, shallow-merge it over the defaults
with a single top-level dict.update; otherwise return the defaults. -/
def load_config (loaded : Option (List (String × JVal))) : List (String × JVal) :=
  match loaded with
  | some loaded_config => dictUpdate default_config loaded_config
  | none => default_config

/-- A key read from a Python dict: a missing key raises KeyError, and
indexing a non-object raises TypeError. -/
def dictGet (v : JVal) (key : String) : Except String JVal :=
  match v with
  | .obj fields =>
      match fields.lookup key with
      | some x => .ok x
      | none => .error ("KeyError: " ++ key)
  | _ => .error ("TypeError: " ++ key)

/-- The configuration reads performed by IntelligentFallbackGenerator
construction, in source order: the fallback_system block via
get_fallback_settings, then its consecutive_failure_threshold and
error_rate_threshold for the FailureDetector, then its strategy for the
SwitchingEngine.  The first missing key aborts construction with the
unhandled KeyError. -/
def intelligent_fallback_init (loaded : Option (List (String × JVal))) :
    Except String (JVal × JVal × JVal) := do
  let config := JVal.obj (load_config loaded)
  let settings ← dictGet config "fallback_system"
  let cft ← dictGet settings "consecutive_failure_threshold"
  let ert ← dictGet settings "error_rate_threshold"
  let strategy ← dictGet settings "strategy"
  return (cft, ert, strategy)

/-- C9: a supplied, existing, parsing configuration file whose top-level
fallback_system object omits any of the keys strategy,
consecutive_failure_threshold, or error_rate_threshold makes load_config
replace the entire default fallback_system block with that object, and
the subsequent orchestrator construction stops with a KeyError instead of
falling back to the built-in defaults. -/
theorem load_config_shallow_merge_keyerror
    (fs : List (String × JVal)) (rest : List (String × JVal))
    (hmiss : fs.lookup "strategy" = none ∨
      fs.lookup "consecutive_failure_threshold" = none ∨
      fs.lookup "error_rate_threshold" = none) :
    (load_config (some (("fallback_system", .obj fs) :: rest))).lookup "fallback_system"
        = some (.obj fs) ∧
    (intelligent_fallback_init (some (("fallback_system", .obj fs) :: rest))).isOk = false := by
  have hmerge :
      (load_config (some (("fallback_system", .obj fs) :: rest))).lookup "fallback_system"
        = some (.obj fs) := by
    simp [load_config, dictUpdate, default_config, List.lookup]
  refine ⟨hmerge, ?_⟩
  simp only [intelligent_fallback_init, dictGet, hmerge, bind, Except.bind]
  rcases hmiss with h | h | h
  · cases hc : fs.lookup "consecutive_failure_threshold" with
    | none => simp [hc, Except.isOk, Except.toBool]
    | some vc =>
        cases he : fs.lookup "error_rate_threshold" with
        | none => simp [hc, he, Except.isOk, Except.toBool]
        | some ve => simp [hc, he, h, Except.isOk, Except.toBool, pure, Except.pure]
  · simp [h, Except.isOk, Except.toBool]
  · cases hc : fs.lookup "consecutive_failure_threshold" with
    | none => simp [hc, Except.isOk, Except.toBool]
    | some vc => simp [hc, h, Except.isOk, Except.toBool]

/-- Witness for C9: a file whose fallback_system block carries only the
enabled flag replaces the whole default block and aborts construction. -/
theorem load_config_shallow_merge_keyerror_witness :
    (load_config (some [("fallback_system", .obj [("enabled", .b true)])])).lookup
        "fallback_system" = some (.obj [("enabled", .b true)]) ∧
    (intelligent_fallback_init
        (some [("fallback_system", .obj [("enabled", .b true)])])).isOk = false :=
  load_config_shallow_merge_keyerror [("enabled", .b true)] [] (Or.inl rfl)

/-! ## Embedding of the Log Analyzer (src/utils/log_analyzer.py) -/

/-- Remainder of the text after the first occurrence of part that is
reachable without crossing a newline; none when the part does not occur
before the end of the line.  This is the gap semantics of the dot-star
separators of the source patterns, whose dot does not match a newline. -/
def findInLine (p : List Char) : List Char → Option (List Char)
  | [] => if charsStart p [] then some [] else none
  | c :: rest =>
      if charsStart p (c :: rest) then some ((c :: rest).drop p.length)
      else if c == '\n' then none
      else findInLine p rest

/-- Match the remaining literal parts of a pattern, each reachable from
the previous one without crossing a newline.  Taking the first in-line
occurrence of each part is complete for this pattern class. -/
def searchTail : List (List Char) → List Char → Bool
  | [], _ => true
  | p :: ps, hay =>
      match findInLine p hay with
      | some rest => searchTail ps rest
      | none => false

/-- Whether the pattern matches with its first part anchored at the head
of the text. -/
def matchAnchored (parts : List (List Char)) (hay : List Char) : Bool :=
  match parts with
  | [] => true
  | p :: ps => charsStart p hay && searchTail ps (hay.drop p.length)

/-- Unanchored regex-style search: the first part may start at any
position of the text (crossing newlines freely, as re.search does), and
the later parts follow within the line. -/
def searchPattern (parts : List (List Char)) : List Char → Bool
  | [] => matchAnchored parts []
  | c :: rest => matchAnchored parts (c :: rest) || searchPattern parts rest

/-- A source pattern: its raw regex text (reported in error_patterns) and
its literal parts, lower-cased because matching is case-insensitive. -/
structure LogPattern where
  raw : String
  parts : List String
  deriving Repr, DecidableEq

/-- Whether a pattern matches the (already lower-cased) content. -/
def patternMatches (p : LogPattern) (content : List Char) : Bool :=
  searchPattern (p.parts.map (fun s => s.data)) content

/-- LogAnalyzer._check_patterns: the raw texts of the patterns of the
list that match the content, in list order. -/
def check_patterns (ps : List LogPattern) (content : List Char) : List String :=
  (ps.filter (fun p => patternMatches p content)).map (fun p => p.raw)

/-- The authentication family of LogAnalyzer.CRITICAL_PATTERNS. -/
def authentication_patterns : List LogPattern :=
  [⟨"API key.*invalid", ["api key", "invalid"]⟩,
   ⟨"authentication.*failed", ["authentication", "failed"]⟩,
   ⟨"unauthorized.*access", ["unauthorized", "access"]⟩,
   ⟨"invalid.*credentials", ["invalid", "credentials"]⟩,
   ⟨"token.*expired", ["token", "expired"]⟩]

/-- The rate_limiting family of LogAnalyzer.CRITICAL_PATTERNS. -/
def rate_limiting_patterns : List LogPattern :=
  [⟨"rate limit.*exceeded", ["rate limit", "exceeded"]⟩,
   ⟨"quota.*exceeded", ["quota", "exceeded"]⟩,
   ⟨"throttled.*request", ["throttled", "request"]⟩,
   ⟨"too many.*requests", ["too many", "requests"]⟩,
   ⟨"billing.*limit", ["billing", "limit"]⟩]

/-- The network family of LogAnalyzer.CRITICAL_PATTERNS. -/
def network_patterns : List LogPattern :=
  [⟨"connection.*timeout", ["connection", "timeout"]⟩,
   ⟨"network.*error", ["network", "error"]⟩,
   ⟨"dns.*resolution.*failed", ["dns", "resolution", "failed"]⟩,
   ⟨"connection.*refused", ["connection", "refused"]⟩,
   ⟨"service.*unavailable", ["service", "unavailable"]⟩]

/-- The resource family of LogAnalyzer.CRITICAL_PATTERNS. -/
def resource_patterns : List LogPattern :=
  [⟨"memory.*error", ["memory", "error"]⟩,
   ⟨"out of.*memory", ["out of", "memory"]⟩,
   ⟨"disk.*full", ["disk", "full"]⟩,
   ⟨"resource.*exhausted", ["resource", "exhausted"]⟩,
   ⟨"timeout.*exceeded", ["timeout", "exceeded"]⟩]

/-- LogAnalyzer.FRAMEWORK_PATTERNS for claude. -/
def claude_framework_patterns : List LogPattern :=
  [⟨"claude.*session.*failed", ["claude", "session", "failed"]⟩,
   ⟨"mcp.*server.*unavailable", ["mcp", "server", "unavailable"]⟩,
   ⟨"context.*window.*exceeded", ["context", "window", "exceeded"]⟩,
   ⟨"claude.*sdk.*error", ["claude", "sdk", "error"]⟩,
   ⟨"anthropic.*api.*error", ["anthropic", "api", "error"]⟩]

/-- LogAnalyzer.FRAMEWORK_PATTERNS for opencode. -/
def opencode_framework_patterns : List LogPattern :=
  [⟨"opencode.*session.*failed", ["opencode", "session", "failed"]⟩,
   ⟨"provider.*unavailable", ["provider", "unavailable"]⟩,
   ⟨"model.*not.*supported", ["model", "not", "supported"]⟩,
   ⟨"session.*timeout", ["session", "timeout"]⟩,
   ⟨"opencode.*api.*error", ["opencode", "api", "error"]⟩]

/-- LogAnalyzer.EXECUTION_PATTERNS, in dict order. -/
def execution_families : List (String × List LogPattern) :=
  [("import_errors",
    [⟨"module.*not.*found", ["module", "not", "found"]⟩,
     ⟨"import.*error", ["import", "error"]⟩,
     ⟨"no module named", ["no module named"]⟩,
     ⟨"cannot import.*name", ["cannot import", "name"]⟩]),
   ("syntax_errors",
    [⟨"syntax.*error", ["syntax", "error"]⟩,
     ⟨"invalid.*syntax", ["invalid", "syntax"]⟩,
     ⟨"indentation.*error", ["indentation", "error"]⟩,
     ⟨"unexpected.*token", ["unexpected", "token"]⟩]),
   ("runtime_errors",
    [⟨"runtime.*error", ["runtime", "error"]⟩,
     ⟨"null.*pointer", ["null", "pointer"]⟩,
     ⟨"segmentation.*fault", ["segmentation", "fault"]⟩,
     ⟨"stack.*overflow", ["stack", "overflow"]⟩])]

/-- Result of a log analysis, from the LogAnalysisResult dataclass. -/
structure LogAnalysisResult where
  has_errors : Bool
  error_type : Option String
  error_patterns : List String
  severity : String
  confidence : ℚ
  suggestions : List String
  deriving Repr, DecidableEq

/-- LogAnalyzer._severity_weight. -/
def severity_weight (s : String) : ℤ :=
  if s = "low" then 1 else if s = "medium" then 2
  else if s = "high" then 3 else if s = "critical" then 4 else 0

/-- LogAnalyzer._get_suggestions. -/
def critical_suggestions (category : String) : List String :=
  if category = "authentication" then
    ["Check API key validity and expiration",
     "Verify environment variables are set correctly",
     "Rotate API key if compromised"]
  else if category = "rate_limiting" then
    ["Implement exponential backoff", "Check API usage quotas",
     "Consider upgrading API plan"]
  else if category = "network" then
    ["Check internet connectivity", "Verify firewall settings",
     "Try alternative network endpoint"]
  else if category = "resource" then
    ["Monitor system resource usage", "Increase timeout values",
     "Check available disk space"]
  else ["Review error logs for specific details"]

/-- LogAnalyzer._get_framework_suggestions. -/
def framework_suggestions (framework : String) : List String :=
  if framework = "claude" then
    ["Check Claude SDK installation and version",
     "Verify MCP server configuration", "Review Claude API status page"]
  else if framework = "opencode" then
    ["Check OpenCode SDK installation", "Verify provider API keys",
     "Try alternative provider/model"]
  else ["Check framework documentation"]

/-- LogAnalyzer._get_execution_suggestions. -/
def execution_suggestions (category : String) : List String :=
  if category = "import_errors" then
    ["Check Python package installation", "Verify PYTHONPATH configuration",
     "Install missing dependencies"]
  else if category = "syntax_errors" then
    ["Review generated code for syntax issues",
     "Check Python version compatibility", "Validate code formatting"]
  else if category = "runtime_errors" then
    ["Check input data validity", "Review error stack trace",
     "Validate program logic"]
  else ["Review execution environment"]

/-- One iteration of the critical-pattern loop of analyze_log_content: a
matching family overwrites error_type and severity and extends the
matched patterns and suggestions.  The loop does not stop at the first
matching family. -/
def apply_critical (r : LogAnalysisResult) (category : String)
    (ps : List LogPattern) (c : List Char) : LogAnalysisResult :=
  let ms := check_patterns ps c
  if ms = [] then r
  else
    { r with has_errors := true
             error_type := some category
             error_patterns := r.error_patterns ++ ms
             severity := "critical"
             confidence := 9/10
             suggestions := r.suggestions ++ critical_suggestions category }

/-- The framework-specific step of analyze_log_content: only taken when a
framework name is supplied and recognized; keeps an error_type already
set, promotes severity to at least high and confidence to at least 0.8. -/
def apply_framework (r : LogAnalysisResult) (framework : Option String)
    (c : List Char) : LogAnalysisResult :=
  match framework with
  | none => r
  | some fw =>
      let ps :=
        if fw = "claude" then some claude_framework_patterns
        else if fw = "opencode" then some opencode_framework_patterns
        else none
      match ps with
      | none => r
      | some ps =>
          let ms := check_patterns ps c
          if ms = [] then r
          else
            { r with has_errors := true
                     error_type :=
                       match r.error_type with
                       | none => some (fw ++ "_specific")
                       | some t => some t
                     error_patterns := r.error_patterns ++ ms
                     severity :=
                       if severity_weight "high" ≤ severity_weight r.severity
                       then r.severity else "high"
                     confidence := max r.confidence (8/10)
                     suggestions := r.suggestions ++ framework_suggestions fw }

/-- The first execution family with a matching pattern, in dict order,
together with its matches (the source loop breaks on the first). -/
def first_execution_match : List (String × List LogPattern) → List Char →
    Option (String × List String)
  | [], _ => none
  | (category, ps) :: rest, c =>
      let ms := check_patterns ps c
      if ms = [] then first_execution_match rest c else some (category, ms)

/-- The execution-pattern step of analyze_log_content: only entered when
nothing above flagged an error. -/
def apply_execution (r : LogAnalysisResult) (c : List Char) : LogAnalysisResult :=
  if r.has_errors then r
  else
    match first_execution_match execution_families c with
    | none => r
    | some (category, ms) =>
        { r with has_errors := true
                 error_type := some category
                 error_patterns := r.error_patterns ++ ms
                 severity := "medium"
                 confidence := 7/10
                 suggestions := r.suggestions ++ execution_suggestions category }

/-- LogAnalyzer.analyze_log_content: the four critical families in dict
order, then the framework-specific step, then the execution step. -/
def analyze_log_content (content : String) (framework : Option String) :
    LogAnalysisResult :=
  let c := lowerChars content
  let r : LogAnalysisResult :=
    { has_errors := false, error_type := none, error_patterns := [],
      severity := "low", confidence := 0, suggestions := [] }
  let r := apply_critical r "authentication" authentication_patterns c
  let r := apply_critical r "rate_limiting" rate_limiting_patterns c
  let r := apply_critical r "network" network_patterns c
  let r := apply_critical r "resource" resource_patterns c
  let r := apply_framework r framework c
  apply_execution r c

/-- Counterexample to C6: the critical-pattern loop does not stop at the
first matching family, so a text that matches an authentication pattern
and also a later critical family ends with the later family as its
error_type — here "rate_limiting", not "authentication". -/
theorem analyze_log_content_counterexample :
    check_patterns authentication_patterns
        (lowerChars "API key invalid, rate limit exceeded") ≠ [] ∧
    (analyze_log_content "API key invalid, rate limit exceeded" none).error_type
        ≠ some "authentication" ∧
    (analyze_log_content "API key invalid, rate limit exceeded" none).error_type
        = some "rate_limiting" := by
  refine ⟨by decide, by decide, by decide⟩

/-- C6 as amended: with no framework supplied, a text matching an
authentication pattern and no later critical family (rate_limiting,
network, resource) yields has_errors true, error_type "authentication",
severity "critical", confidence 0.9; and a text matching no critical and
no execution pattern yields has_errors false, no error_type, severity
"low". -/
theorem analyze_log_content_authentication_amended :
    (∀ content : String,
      check_patterns authentication_patterns (lowerChars content) ≠ [] →
      check_patterns rate_limiting_patterns (lowerChars content) = [] →
      check_patterns network_patterns (lowerChars content) = [] →
      check_patterns resource_patterns (lowerChars content) = [] →
      (analyze_log_content content none).has_errors = true ∧
      (analyze_log_content content none).error_type = some "authentication" ∧
      (analyze_log_content content none).severity = "critical" ∧
      (analyze_log_content content none).confidence = 9/10) ∧
    (∀ content : String,
      check_patterns authentication_patterns (lowerChars content) = [] →
      check_patterns rate_limiting_patterns (lowerChars content) = [] →
      check_patterns network_patterns (lowerChars content) = [] →
      check_patterns resource_patterns (lowerChars content) = [] →
      first_execution_match execution_families (lowerChars content) = none →
      (analyze_log_content content none).has_errors = false ∧
      (analyze_log_content content none).error_type = none ∧
      (analyze_log_content content none).severity = "low") := by
  constructor
  · intro content h1 h2 h3 h4
    simp [analyze_log_content, apply_critical, apply_framework, apply_execution,
      h1, h2, h3, h4]
  · intro content h1 h2 h3 h4 h5
    simp [analyze_log_content, apply_critical, apply_framework, apply_execution,
      h1, h2, h3, h4, h5]

/-- Witness for C6: the authentication part instantiated at the exact
test-suite string, and the no-match part at the clean two-line log. -/
theorem analyze_log_content_authentication_amended_witness :
    ((analyze_log_content "ERROR: API key is invalid or expired" none).has_errors = true ∧
     (analyze_log_content "ERROR: API key is invalid or expired" none).error_type
        = some "authentication" ∧
     (analyze_log_content "ERROR: API key is invalid or expired" none).severity
        = "critical" ∧
     (analyze_log_content "ERROR: API key is invalid or expired" none).confidence
        = 9/10) ∧
    ((analyze_log_content "INFO: Successfully generated code\nINFO: Task completed"
        none).has_errors = false ∧
     (analyze_log_content "INFO: Successfully generated code\nINFO: Task completed"
        none).error_type = none ∧
     (analyze_log_content "INFO: Successfully generated code\nINFO: Task completed"
        none).severity = "low") :=
  ⟨analyze_log_content_authentication_amended.1
      "ERROR: API key is invalid or expired"
      (by decide) (by decide) (by decide) (by decide),
   analyze_log_content_authentication_amended.2
      "INFO: Successfully generated code\nINFO: Task completed"
      (by decide) (by decide) (by decide) (by decide) (by decide)⟩
